import Mathlib

/-
Verification development for the game-analytics-dashboard backend
(`backend/app/steam_client.py`, `backend/app/main.py`,
`backend/app/models.py`, `backend/app/routers/games.py`).

The Python code is shallowly embedded:

* JSON values returned by the Steam storefront API are modelled by the
  inductive `JVal` (with `JArr` / `JObj` for arrays and objects).
  Python `dict.get`, truthiness, `x or y`, iteration and `", ".join`
  are modelled by `dictGet`, `pyTruthy`, `pyOr`, `pyIter` and
  `pyJoinComma`; steps where Python would raise a runtime error
  (`AttributeError` / `TypeError`) return `Except` errors.
* The HTTP transport is modelled by `HttpOutcome`: either a network /
  non-2xx failure (everything `requests` raises before `resp.json()`
  succeeds) or a parsed JSON object body.
* The SQLAlchemy `games` table is modelled by `Store`: a list of `Game`
  rows, an autoincrement counter `nextId`, and a logical clock `now`
  used for the `created_at` / `updated_at` timestamps.  An `UPDATE`
  refreshes `updated_at` (via the onupdate hook of the model) only when some
  attribute value actually changed — SQLAlchemy emits no `UPDATE`
  statement when every assigned attribute compares equal to its loaded
  value.  Analytics columns never touched by the sync core
  (`platform`, `hours_played`, `price_usd`, `rating`, `completed`)
  are omitted from the row model but kept in the column-name list used
  by the declarative-constructor model.
* `dateutil.parser.parse` is an external library; the sync function is
  parameterised by `parseDate : String → Option CalDate`, `none`
  standing for the exception that the surrounding `try/except`
  swallows (non-string inputs also raise and are likewise swallowed).
-/

-- ===================== JSON values =====================

mutual
inductive JVal where
  | jnull
  | jbool (b : Bool)
  | jnum (n : Int)
  | jstr (s : String)
  | jarr (xs : JArr)
  | jobj (fields : JObj)
deriving DecidableEq, Repr
inductive JArr where
  | nil
  | cons (hd : JVal) (tl : JArr)
deriving DecidableEq, Repr
inductive JObj where
  | nil
  | cons (key : String) (val : JVal) (tl : JObj)
deriving DecidableEq, Repr
end

def JArr.toList : JArr → List JVal
  | .nil => []
  | .cons h t => h :: t.toList

def JArr.ofList : List JVal → JArr
  | [] => .nil
  | h :: t => .cons h (JArr.ofList t)

def JObj.get? : JObj → String → Option JVal
  | .nil, _ => none
  | .cons k v t, key => if k = key then some v else t.get? key

def JObj.hasKey (o : JObj) (key : String) : Bool :=
  (o.get? key).isSome

def JObj.keys : JObj → List String
  | .nil => []
  | .cons k _ t => k :: t.keys

def JArr.isNil : JArr → Bool
  | .nil => true
  | .cons _ _ => false

def JObj.isNil : JObj → Bool
  | .nil => true
  | .cons _ _ _ => false

/-- Python truthiness of a JSON value (`bool(v)`). -/
def pyTruthy : JVal → Bool
  | .jnull => false
  | .jbool b => b
  | .jnum n => decide (n ≠ 0)
  | .jstr s => decide (s ≠ "")
  | .jarr xs => !xs.isNil
  | .jobj fs => !fs.isNil

/-- Python `a or b`. -/
def pyOr (a b : JVal) : JVal :=
  if pyTruthy a then a else b

def JVal.isObj : JVal → Bool
  | .jobj _ => true
  | _ => false

def JVal.isStr : JVal → Bool
  | .jstr _ => true
  | _ => false

-- ===================== steam_client.py =====================

/-- The two ways `fetch_steam_app_details` can fail: its own
`SteamAPIError`, or a Python runtime error escaping it
(e.g. `AttributeError` from calling `.get` on a non-dict). -/
inductive FetchErr where
  | steamAPIError (msg : String)
  | pyError (msg : String)
deriving DecidableEq, Repr

/-- Python `v.get(key, dflt)`: `AttributeError` unless `v` is a dict;
a key present with a null value yields null, not the default. -/
def dictGet (v : JVal) (key : String) (dflt : JVal) : Except FetchErr JVal :=
  match v with
  | .jobj fs => .ok ((fs.get? key).getD dflt)
  | _ => .error (.pyError ("AttributeError: no attribute get (key " ++ key ++ ")"))

/-- `v.get(key)` on a value already known to be a dict (used after an
`isinstance(v, dict)` filter); total, returning null when absent. -/
def objGetD (v : JVal) (key : String) : JVal :=
  match v with
  | .jobj fs => (fs.get? key).getD JVal.jnull
  | _ => JVal.jnull

/-- Python iteration `for x in v`: lists yield elements, strings yield
one-character strings, dicts yield their keys; other values raise
`TypeError`. -/
def pyIter (v : JVal) : Except FetchErr (List JVal) :=
  match v with
  | .jarr xs => .ok xs.toList
  | .jstr s => .ok (s.toList.map (fun c => JVal.jstr (String.mk [c])))
  | .jobj fs => .ok (fs.keys.map JVal.jstr)
  | _ => .error (.pyError "TypeError: not iterable")

/-- The dict returned by `fetch_steam_app_details` (its fixed keys). -/
structure SteamData where
  steam_appid : JVal
  name : JVal
  genres : List JVal
  developers : List JVal
  publishers : List JVal
  categories : List JVal
  release_date : JVal
  is_free : Bool
  metacritic_score : JVal
  recommendations_count : JVal
  header_image : JVal
  languages : JVal
deriving DecidableEq, Repr

/-- `steam_client.py` lines 37-83: normalization of `app_data`
(the duplicated `genres`/`developers` gets in the source are
effect-free and collapsed). -/
def normalizeAppDetails (app_data : JVal) : Except FetchErr SteamData := do
  let name ← dictGet app_data "name" JVal.jnull
  let genres_v ← dictGet app_data "genres" (JVal.jarr JArr.nil)
  let developers_v ← dictGet app_data "developers" (JVal.jarr JArr.nil)
  let publishers_v ← dictGet app_data "publishers" (JVal.jarr JArr.nil)
  let categories_v ← dictGet app_data "categories" (JVal.jarr JArr.nil)
  let genres_data ← pyIter (pyOr genres_v (JVal.jarr JArr.nil))
  let developers_data ← pyIter (pyOr developers_v (JVal.jarr JArr.nil))
  let publishers_data ← pyIter (pyOr publishers_v (JVal.jarr JArr.nil))
  let categories_data ← pyIter (pyOr categories_v (JVal.jarr JArr.nil))
  let genres := (genres_data.filter JVal.isObj).map (fun g => objGetD g "description")
  let developers := developers_data.filter JVal.isStr
  let publishers := publishers_data.filter JVal.isStr
  let categories := (categories_data.filter JVal.isObj).map (fun c => objGetD c "description")
  let release_date_v ← dictGet app_data "release_date" JVal.jnull
  let release_date_str ← dictGet (pyOr release_date_v (JVal.jobj JObj.nil)) "date" JVal.jnull
  let metacritic_v ← dictGet app_data "metacritic" JVal.jnull
  let metacritic_score ← dictGet (pyOr metacritic_v (JVal.jobj JObj.nil)) "score" JVal.jnull
  let recommendations_v ← dictGet app_data "recommendations" JVal.jnull
  let rec_count ← dictGet (pyOr recommendations_v (JVal.jobj JObj.nil)) "total" JVal.jnull
  let supported_languages ← dictGet app_data "supported_languages" JVal.jnull
  let header_image ← dictGet app_data "header_image" JVal.jnull
  let is_free_v ← dictGet app_data "is_free" (JVal.jbool false)
  let steam_appid ← dictGet app_data "steam_appid" JVal.jnull
  pure { steam_appid := steam_appid, name := name,
         genres := genres, developers := developers,
         publishers := publishers, categories := categories,
         release_date := release_date_str,
         is_free := pyTruthy is_free_v,
         metacritic_score := metacritic_score,
         recommendations_count := rec_count,
         header_image := header_image,
         languages := supported_languages }

/-- Outcome of the HTTP GET: every transport failure (timeout,
connection refused, non-2xx via `raise_for_status`) raises
`requests.RequestException`; otherwise the parsed JSON body, an
object keyed by the string form of the appid. -/
inductive HttpOutcome where
  | netError (msg : String)
  | ok (body : JObj)

/-- `steam_client.fetch_steam_app_details` from the point the transport
outcome is known. -/
def fetch_steam_app_details (appid : Int) (resp : HttpOutcome) :
    Except FetchErr SteamData :=
  match resp with
  | .netError m =>
      .error (.steamAPIError ("Network error calling Steam API: " ++ m))
  | .ok data =>
    let app_key := toString appid
    match data.get? app_key with
    | none =>
        .error (.steamAPIError
          ("Steam API did not return data for appid " ++ app_key ++ "."))
    | some entry =>
      match dictGet entry "success" JVal.jnull with
      | .error e => .error e
      | .ok success =>
        if ¬ pyTruthy success then
          .error (.steamAPIError
            ("Steam API did not return data for appid " ++ app_key ++ "."))
        else
          match dictGet entry "data" (JVal.jobj JObj.nil) with
          | .error e => .error e
          | .ok app_data => normalizeAppDetails app_data

-- ===================== models.py / store =====================

/-- A calendar date as produced by `dateutil.parser.parse(...).date()`. -/
structure CalDate where
  year : Int
  month : Nat
  day : Nat
deriving DecidableEq, Repr

/-- One row of the `games` table (`models.Game`); the analytics columns
never touched by the sync core are omitted (see header comment). -/
structure Game where
  id : Nat
  steam_appid : JVal
  name : JVal
  genre : String
  developer : String
  publisher : String
  release_date : Option CalDate
  is_free : Bool
  metacritic_score : JVal
  recommendations_count : JVal
  header_image : JVal
  languages : JVal
  categories : String
  created_at : Nat
  updated_at : Nat
deriving DecidableEq, Repr

/-- The database: the `games` table in row order, the autoincrement
primary-key counter, and a logical clock for timestamps. -/
structure Store where
  games : List Game
  nextId : Nat
  now : Nat
deriving DecidableEq, Repr

-- ===================== main.py: sync_game_from_steam =====================

/-- How `sync_game_from_steam` fails: an `HTTPException` it raises
itself (status 502 or 404), or a Python runtime error escaping it. -/
inductive SyncErr where
  | http (status : Nat) (detail : String)
  | py (msg : String)
deriving DecidableEq, Repr

def allStrings : List JVal → Option (List String)
  | [] => some []
  | .jstr s :: t => (allStrings t).map (fun r => s :: r)
  | _ => none

/-- Python `", ".join(xs)`: `TypeError` unless every element is a string. -/
def pyJoinComma (xs : List JVal) : Except SyncErr String :=
  match allStrings xs with
  | some ss => .ok (String.intercalate ", " ss)
  | none => .error (.py "TypeError: sequence item is not a str")

/-- `main.py` lines 56-62: truthiness check, then best-effort parse with
every exception swallowed to `None` (including the `TypeError` that
`dateutil` raises on non-string input). -/
def computeReleaseDate (v : JVal) (parseDate : String → Option CalDate) :
    Option CalDate :=
  if pyTruthy v then
    match v with
    | .jstr s => parseDate s
    | _ => none
  else none

/-- `main.py` lines 71-81: the attribute assignments of the update path,
overwriting the mirrored and rendered fields on the existing row. -/
def applyFields (g : Game) (sd : SteamData)
    (genres developers publishers categories : String)
    (release_date : Option CalDate) : Game :=
  { g with
    name := sd.name, genre := genres, developer := developers,
    publisher := publishers, release_date := release_date,
    is_free := sd.is_free,
    metacritic_score := sd.metacritic_score,
    recommendations_count := sd.recommendations_count,
    header_image := sd.header_image, languages := sd.languages,
    categories := categories }

/-- `main.py` lines 83-96: the row constructed on the insert path. -/
def newGameOf (sd : SteamData)
    (genres developers publishers categories : String)
    (release_date : Option CalDate) (db : Store) : Game :=
  { id := db.nextId, steam_appid := sd.steam_appid, name := sd.name,
    genre := genres, developer := developers, publisher := publishers,
    release_date := release_date, is_free := sd.is_free,
    metacritic_score := sd.metacritic_score,
    recommendations_count := sd.recommendations_count,
    header_image := sd.header_image, languages := sd.languages,
    categories := categories, created_at := db.now, updated_at := db.now }

/-- `main.sync_game_from_steam` (lines 39-101).  The commit advances the
clock; on the update path SQLAlchemy emits an `UPDATE` (which fires
the onupdate hook of the model on `updated_at`) only when some assigned
attribute actually changed. -/
def sync_game_from_steam (appid : Int) (db : Store) (resp : HttpOutcome)
    (parseDate : String → Option CalDate) : Except SyncErr (Game × Store) :=
  match fetch_steam_app_details appid resp with
  | .error (.steamAPIError m) => .error (.http 502 m)
  | .error (.pyError m) => .error (.py m)
  | .ok sd =>
    if ¬ pyTruthy sd.name then
      .error (.http 404
        ("No game name returned from Steam for appid " ++ toString appid ++ "."))
    else
      match pyJoinComma sd.genres with
      | .error e => .error e
      | .ok genres =>
      match pyJoinComma sd.developers with
      | .error e => .error e
      | .ok developers =>
      match pyJoinComma sd.publishers with
      | .error e => .error e
      | .ok publishers =>
      match pyJoinComma sd.categories with
      | .error e => .error e
      | .ok categories =>
      let release_date := computeReleaseDate sd.release_date parseDate
      match db.games.find? (fun g => g.steam_appid == sd.steam_appid) with
      | some g0 =>
        let g1 := applyFields g0 sd genres developers publishers categories release_date
        if g1 = g0 then
          (.ok (g0, { db with now := db.now + 1 }))
        else
          let committed := { g1 with updated_at := db.now }
          .ok (committed,
            { db with
              games := db.games.map (fun x => if x.id = g0.id then committed else x),
              now := db.now + 1 })
      | none =>
        let g := newGameOf sd genres developers publishers categories release_date db
        .ok (g, { games := db.games ++ [g], nextId := db.nextId + 1, now := db.now + 1 })

-- ===================== main.py: sync_steam_batch =====================

/-- One element of the list returned by `sync_steam_batch`:
`{"appid": .., "ok": true, "id": .., "name": ..}` or
`{"appid": .., "ok": false, "error": ..}`. -/
inductive BatchResult where
  | succ (appid : Int) (id : Nat) (name : JVal)
  | fail (appid : Int) (errMsg : String)
deriving DecidableEq, Repr

def BatchResult.appid : BatchResult → Int
  | .succ a _ _ => a
  | .fail a _ => a

/-- The text captured for a failed item: `exc.detail` for an
`HTTPException`, `str(exc)` otherwise. -/
def errDetail : SyncErr → String
  | .http _ d => d
  | .py m => m

/-- `main.sync_steam_batch` (lines 215-248): per-item try/except around
`sync_game_from_steam`, threading the session; a failed item appends a
failure value and processing continues on the unchanged store. -/
def sync_steam_batch (appids : List Int) (db : Store)
    (resps : Int → HttpOutcome) (parseDate : String → Option CalDate) :
    List BatchResult × Store :=
  match appids with
  | [] => ([], db)
  | a :: rest =>
    match sync_game_from_steam a db (resps a) parseDate with
    | .ok (g, db') =>
      let r := sync_steam_batch rest db' resps parseDate
      (BatchResult.succ a g.id g.name :: r.1, r.2)
    | .error e =>
      let r := sync_steam_batch rest db resps parseDate
      (BatchResult.fail a (errDetail e) :: r.1, r.2)

-- ===================== list / create endpoints =====================

/-- The `ORDER BY games.id` relation of `main.list_games`. -/
def gameLE (a b : Game) : Prop := a.id ≤ b.id

instance : DecidableRel gameLE :=
  fun a b => inferInstanceAs (Decidable (a.id ≤ b.id))

instance : IsTotal Game gameLE := ⟨fun a b => Nat.le_total a.id b.id⟩

instance : IsTrans Game gameLE := ⟨fun _ _ _ => Nat.le_trans⟩

/-- `main.list_games` (lines 173-185): `ORDER BY id OFFSET skip LIMIT n`. -/
def list_games (db : Store) (skip limitN : Nat) : List Game :=
  (((db.games).insertionSort gameLE).drop skip).take limitN

/-- `routers/games.list_games` (lines 33-36): no `ORDER BY`; a plain
table scan returns rows in table order. -/
def list_games_router (db : Store) (skip limitN : Nat) : List Game :=
  ((db.games).drop skip).take limitN

/-- `schemas.GameCreate`, restricted to the fields the router create
endpoint reads. -/
structure GameCreate where
  name : String
  steam_appid : Option Int
  genre : Option String
  developer : Option String
deriving DecidableEq, Repr

/-- Every column/attribute name defined on `models.Game`. -/
def gameModelColumns : List String :=
  ["id", "steam_appid", "name", "genre", "developer", "publisher",
   "release_date", "is_free", "metacritic_score", "recommendations_count",
   "header_image", "languages", "categories", "platform", "hours_played",
   "price_usd", "rating", "completed", "created_at", "updated_at"]

/-- The keyword-argument names `routers/games.create_game` passes to the
`models.Game` declarative constructor (lines 48-55). -/
def routerCreateKwargKeys : List String :=
  ["name", "source", "source_game_id", "genre"]

/-- `routers/games.create_game` (lines 39-60).  The SQLAlchemy
declarative constructor rejects any keyword that is not a mapped
attribute with a `TypeError` before the instance exists, so control
reaches `db.add` only if every keyword is a column name. -/
def create_game (game_in : GameCreate) (db : Store) :
    Except String (Game × Store) :=
  match routerCreateKwargKeys.find? (fun k => !(gameModelColumns.contains k)) with
  | some k => .error ("TypeError: " ++ k ++ " is an invalid keyword argument for Game")
  | none =>
    let g : Game :=
      { id := db.nextId, steam_appid := JVal.jnull,
        name := JVal.jstr game_in.name,
        genre := (game_in.genre.getD ""), developer := "", publisher := "",
        release_date := none, is_free := false,
        metacritic_score := JVal.jnull, recommendations_count := JVal.jnull,
        header_image := JVal.jnull, languages := JVal.jnull, categories := "",
        created_at := db.now, updated_at := db.now }
    .ok (g, { games := db.games ++ [g], nextId := db.nextId + 1, now := db.now + 1 })

-- ===================== invariants / helpers =====================

def isOkE {ε α : Type} : Except ε α → Bool
  | .ok _ => true
  | .error _ => false

/-- At most one row per non-null external id (`steam_appid` is declared
`unique=True, nullable=True`). -/
def uniqueExternalIds (st : Store) : Prop :=
  st.games.Pairwise
    (fun a b => a.steam_appid = JVal.jnull ∨ a.steam_appid ≠ b.steam_appid)

/-- Primary keys are pairwise distinct. -/
def idsDistinct (st : Store) : Prop :=
  st.games.Pairwise (fun a b => a.id ≠ b.id)

-- ===================== concrete fixtures =====================

def objOf : List (String × JVal) → JObj
  | [] => .nil
  | (k, v) :: t => .cons k v (objOf t)

/-- An empty database. -/
def store0 : Store := { games := [], nextId := 1, now := 0 }

/-- A date parser that fails on everything (concrete stand-in). -/
def parseNone : String → Option CalDate := fun _ => none

/-- A successful storefront body for one appid with the given `data`. -/
def bodyFor (appid : Int) (dataFields : JObj) : JObj :=
  JObj.cons (toString appid)
    (JVal.jobj (objOf [("success", JVal.jbool true), ("data", JVal.jobj dataFields)]))
    JObj.nil

/-- Upstream data for appid 620 ("Portal 2"-shaped). -/
def portalData : JObj :=
  objOf
    [("steam_appid", JVal.jnum 620),
     ("name", JVal.jstr "Portal 2"),
     ("genres", JVal.jarr (JArr.ofList
        [JVal.jobj (objOf [("description", JVal.jstr "Action")]),
         JVal.jobj (objOf [("description", JVal.jstr "Adventure")])])),
     ("developers", JVal.jarr (JArr.ofList [JVal.jstr "Valve"])),
     ("publishers", JVal.jarr (JArr.ofList [JVal.jstr "Valve"])),
     ("categories", JVal.jarr (JArr.ofList
        [JVal.jobj (objOf [("description", JVal.jstr "Single-player")])])),
     ("release_date", JVal.jobj (objOf [("date", JVal.jstr "Apr 18, 2011")])),
     ("is_free", JVal.jbool false),
     ("metacritic", JVal.jobj (objOf [("score", JVal.jnum 95)])),
     ("recommendations", JVal.jobj (objOf [("total", JVal.jnum 100000)])),
     ("header_image", JVal.jstr "http://img"),
     ("supported_languages", JVal.jstr "English, French")]

def bodyC1 : JObj :=
  JObj.cons "620" (JVal.jobj (objOf [("success", JVal.jbool false)])) JObj.nil

def dataC5 : JObj :=
  objOf
    [("steam_appid", JVal.jnum 620),
     ("name", JVal.jstr "Mixed"),
     ("genres", JVal.jarr (JArr.ofList
        [JVal.jstr "Action", JVal.jnum 42,
         JVal.jobj (objOf [("description", JVal.jstr "Indie")])]))]

def dataC8 : JObj := objOf [("name", JVal.jstr "NoAppid")]

-- batch: 620 ok, -1 not found, 730 ok
def respsB : Int → HttpOutcome := fun a =>
  if a = 620 then HttpOutcome.ok (bodyFor 620 portalData)
  else if a = 730 then HttpOutcome.ok (bodyFor 730 dataC8)
  else HttpOutcome.ok JObj.nil

def portalData2 : JObj :=
  objOf
    [("steam_appid", JVal.jnum 620),
     ("name", JVal.jstr "Portal 2 Remastered"),
     ("genres", JVal.jarr (JArr.ofList
        [JVal.jobj (objOf [("description", JVal.jstr "Action")]),
         JVal.jobj (objOf [("description", JVal.jstr "Adventure")])])),
     ("developers", JVal.jarr (JArr.ofList [JVal.jstr "Valve"])),
     ("publishers", JVal.jarr (JArr.ofList [JVal.jstr "Valve"])),
     ("categories", JVal.jarr (JArr.ofList
        [JVal.jobj (objOf [("description", JVal.jstr "Single-player")])])),
     ("release_date", JVal.jobj (objOf [("date", JVal.jstr "Apr 18, 2011")])),
     ("is_free", JVal.jbool false),
     ("metacritic", JVal.jobj (objOf [("score", JVal.jnum 95)])),
     ("recommendations", JVal.jobj (objOf [("total", JVal.jnum 100000)])),
     ("header_image", JVal.jstr "http://img"),
     ("supported_languages", JVal.jstr "English, French")]

/-- The canonical record the client produces from `portalData`. -/
def sdPortal : SteamData :=
  { steam_appid := JVal.jnum 620, name := JVal.jstr "Portal 2",
    genres := [JVal.jstr "Action", JVal.jstr "Adventure"],
    developers := [JVal.jstr "Valve"], publishers := [JVal.jstr "Valve"],
    categories := [JVal.jstr "Single-player"],
    release_date := JVal.jstr "Apr 18, 2011", is_free := false,
    metacritic_score := JVal.jnum 95, recommendations_count := JVal.jnum 100000,
    header_image := JVal.jstr "http://img", languages := JVal.jstr "English, French" }

/-- The canonical record the client produces from `portalData2`. -/
def sdPortal2 : SteamData := { sdPortal with name := JVal.jstr "Portal 2 Remastered" }

/-- The canonical record for an empty upstream `data` object. -/
def sdEmpty : SteamData :=
  { steam_appid := JVal.jnull, name := JVal.jnull, genres := [],
    developers := [], publishers := [], categories := [],
    release_date := JVal.jnull, is_free := false,
    metacritic_score := JVal.jnull, recommendations_count := JVal.jnull,
    header_image := JVal.jnull, languages := JVal.jnull }

/-- The canonical record the client produces from `dataC8`. -/
def sdNoAppid : SteamData := { sdEmpty with name := JVal.jstr "NoAppid" }

/-- The row inserted by the first sync of `portalData` into `store0`. -/
def portalGame : Game :=
  { id := 1, steam_appid := JVal.jnum 620, name := JVal.jstr "Portal 2",
    genre := "Action, Adventure", developer := "Valve", publisher := "Valve",
    release_date := none, is_free := false,
    metacritic_score := JVal.jnum 95, recommendations_count := JVal.jnum 100000,
    header_image := JVal.jstr "http://img", languages := JVal.jstr "English, French",
    categories := "Single-player", created_at := 0, updated_at := 0 }

/-- The store after that first sync. -/
def storeP : Store := { games := [portalGame], nextId := 2, now := 1 }

/-- The row after resyncing `storeP` with the renamed upstream data. -/
def remGame : Game :=
  { portalGame with name := JVal.jstr "Portal 2 Remastered", updated_at := 1 }

/-- The store after that resync. -/
def storeRem : Store := { games := [remGame], nextId := 2, now := 2 }

/-- The row inserted by syncing `dataC8` (null external id) into `store0`. -/
def noAppidGame : Game :=
  { id := 1, steam_appid := JVal.jnull, name := JVal.jstr "NoAppid", genre := "",
    developer := "", publisher := "", release_date := none, is_free := false,
    metacritic_score := JVal.jnull, recommendations_count := JVal.jnull,
    header_image := JVal.jnull, languages := JVal.jnull, categories := "",
    created_at := 0, updated_at := 0 }

/-- The store after that sync. -/
def storeNA : Store := { games := [noAppidGame], nextId := 2, now := 1 }

/-- Value of a Python `dict.get(key, dflt)` on an actual dict. -/
def jfield (fs : JObj) (key : String) (dflt : JVal) : JVal :=
  (fs.get? key).getD dflt

/-- An upstream `data` object with all four list fields present, the
genres list mixing a string, a number and a description dict. -/
def dataC5Full : JObj :=
  objOf
    [("genres", JVal.jarr (JArr.ofList
        [JVal.jstr "Action", JVal.jnum 42,
         JVal.jobj (objOf [("description", JVal.jstr "Indie")])])),
     ("developers", JVal.jarr JArr.nil),
     ("publishers", JVal.jarr JArr.nil),
     ("categories", JVal.jarr JArr.nil)]

/-- The canonical record the client produces from `dataC5Full`. -/
def sdMixed : SteamData :=
  { steam_appid := JVal.jnull, name := JVal.jnull,
    genres := [JVal.jstr "Indie"], developers := [], publishers := [],
    categories := [], release_date := JVal.jnull, is_free := false,
    metacritic_score := JVal.jnull, recommendations_count := JVal.jnull,
    header_image := JVal.jnull, languages := JVal.jnull }

-- ===================== theorems =====================

/-- Claim C10: the create operation of the games router passes keyword
arguments `source` and `source_game_id` that `models.Game` does not
define, so the declarative constructor raises `TypeError` for every
input before anything is added to the session: no record is ever
inserted and the store is left unchanged. -/
theorem create_game_always_raises (game_in : GameCreate) (db : Store) :
    create_game game_in db =
      Except.error "TypeError: source is an invalid keyword argument for Game" := rfl

/-- Claim C3: for every input sequence of appids, the batch sync is a
total function returning exactly one result per input appid, in input
order; a per-item failure is turned into a failure value (built from
the textual description of the error by `errDetail`) and the remaining
items are processed against the unchanged store, prior successes kept. -/
theorem sync_steam_batch_total_ordered (appids : List Int) (db : Store)
    (resps : Int → HttpOutcome) (parseDate : String → Option CalDate) :
    ((sync_steam_batch appids db resps parseDate).1.map BatchResult.appid = appids) ∧
    ((sync_steam_batch appids db resps parseDate).1.length = appids.length) := by
  induction appids generalizing db with
  | nil => exact ⟨rfl, rfl⟩
  | cons a rest ih =>
    simp only [sync_steam_batch]
    cases hs : sync_game_from_steam a db (resps a) parseDate with
    | ok gr =>
      obtain ⟨g, db'⟩ := gr
      obtain ⟨hmap, hlen⟩ := ih db'
      simp [hmap, hlen, BatchResult.appid]
    | error e =>
      obtain ⟨hmap, hlen⟩ := ih db
      simp [hmap, hlen, BatchResult.appid]

/-- Claim C1 counterexample: when the remote API responds successfully
but marks the lookup unsuccessful (`success: false`), the client
raises the same `SteamAPIError` as for a transport failure, and
`sync_game_from_steam` surfaces it as 502 — not as the distinct
not-found condition (404) the claim requires for this case. -/
theorem sync_success_false_gives_502 :
    sync_game_from_steam 620 store0 (HttpOutcome.ok bodyC1) parseNone =
      Except.error (SyncErr.http 502 "Steam API did not return data for appid 620.") ∧
    (502 : Nat) ≠ 404 := ⟨rfl, by decide⟩

/-- Claim C5 counterexample: an upstream genres list
`["Action", 42, {"description": "Indie"}]` yields `genre = "Indie"`
on the synced record: the plain-string element "Action" is discarded
(only dict-shaped elements survive the genres filter), contradicting
the claimed result "Action, Indie". -/
theorem genres_string_element_dropped :
    (sync_game_from_steam 620 store0 (HttpOutcome.ok (bodyFor 620 dataC5)) parseNone).map
      (fun r => r.1.genre) = Except.ok "Indie" ∧
    "Indie" ≠ "Action, Indie" := ⟨rfl, by decide⟩

/-- Claim C8 counterexample: a successful fetch whose `data` object
carries a usable name but omits `steam_appid` produces a canonical
record with a null external id, and the insert path of the sync stores
that null on the new record — so a sync-created record need not carry
a present external id. -/
theorem sync_inserts_null_external_id :
    (sync_game_from_steam 730 store0 (HttpOutcome.ok (bodyFor 730 dataC8)) parseNone).map
      (fun r => (r.1.steam_appid, r.1.name)) =
      Except.ok (JVal.jnull, JVal.jstr "NoAppid") := rfl

/-- Claim C4 counterexample: resyncing `storeP` (clock `now = 1`) with
an unchanged upstream response takes the update path, yet leaves
`updated_at = 0`: SQLAlchemy emits no UPDATE when every assigned
attribute is unchanged, so the store does not refresh `updated_at`
(a refresh would have set it to 1). -/
theorem resync_unchanged_skips_updated_at :
    (sync_game_from_steam 620 storeP (HttpOutcome.ok (bodyFor 620 portalData)) parseNone).map
      (fun r => (r.1.id, r.1.updated_at, r.2.now)) = Except.ok (1, 0, 2) ∧
    (0 : Nat) ≠ 1 := ⟨rfl, by decide⟩

/-- Claim C9: the list operation of `main.py` returns the stored
records ordered by `id` ascending; for every offset and limit the
result is exactly the (offset, limit) slice of the id-ascending
ordering of storage (hence stable across repeated calls on unchanged
storage, the embedding being a pure function of the store); the
ordered sequence is a permutation of storage.  The router variant
(`GET /games/` without ORDER BY, a table scan in row order) returns
the same slice whenever the table is already in id order. -/
theorem list_games_ordered_stable (db : Store) (skip limitN : Nat) :
    List.Sorted gameLE (list_games db skip limitN) ∧
    list_games db skip limitN =
      ((db.games.insertionSort gameLE).drop skip).take limitN ∧
    (db.games.insertionSort gameLE).Perm db.games ∧
    (List.Sorted gameLE db.games →
      list_games_router db skip limitN = list_games db skip limitN) := by
  refine ⟨?_, rfl, List.perm_insertionSort gameLE db.games, ?_⟩
  · exact List.Pairwise.sublist (List.take_sublist _ _)
      (List.Pairwise.sublist (List.drop_sublist _ _)
        (List.sorted_insertionSort gameLE db.games))
  · intro h
    simp [list_games_router, list_games, h.insertionSort_eq]

/-- Witness for claim C9 at a concrete one-row store (which is in id
order, so the router-variant hypothesis is dischargeable). -/
theorem list_games_ordered_stable_witness :
    List.Sorted gameLE (list_games storeP 0 5) ∧
    list_games storeP 0 5 = ((storeP.games.insertionSort gameLE).drop 0).take 5 ∧
    (storeP.games.insertionSort gameLE).Perm storeP.games ∧
    list_games_router storeP 0 5 = list_games storeP 0 5 := by
  obtain ⟨h1, h2, h3, h4⟩ := list_games_ordered_stable storeP 0 5
  exact ⟨h1, h2, h3, h4 (List.sorted_singleton portalGame)⟩

/-- Claim C1 (amended): the client fails with `SteamAPIError` on
network/transport failure AND when the response omits the appid key or
carries `success: false` — all surfaced by `sync_game_from_steam` as
502; only the case of a successful fetch returning no usable (truthy)
name is surfaced as the distinct 404 not-found condition.  The two
status codes remain distinguishable to the caller. -/
theorem sync_error_classification :
    (∀ (appid : Int) (db : Store) (p : String → Option CalDate) (m : String),
       sync_game_from_steam appid db (HttpOutcome.netError m) p =
         Except.error (SyncErr.http 502 ("Network error calling Steam API: " ++ m))) ∧
    (∀ (appid : Int) (db : Store) (p : String → Option CalDate) (body : JObj),
       body.get? (toString appid) = none →
       sync_game_from_steam appid db (HttpOutcome.ok body) p =
         Except.error (SyncErr.http 502
           ("Steam API did not return data for appid " ++ toString appid ++ "."))) ∧
    (∀ (appid : Int) (db : Store) (p : String → Option CalDate) (body : JObj)
       (entry : JObj),
       body.get? (toString appid) = some (JVal.jobj entry) →
       pyTruthy ((entry.get? "success").getD JVal.jnull) = false →
       sync_game_from_steam appid db (HttpOutcome.ok body) p =
         Except.error (SyncErr.http 502
           ("Steam API did not return data for appid " ++ toString appid ++ "."))) ∧
    (∀ (appid : Int) (db : Store) (p : String → Option CalDate) (resp : HttpOutcome)
       (sd : SteamData),
       fetch_steam_app_details appid resp = Except.ok sd →
       pyTruthy sd.name = false →
       sync_game_from_steam appid db resp p =
         Except.error (SyncErr.http 404
           ("No game name returned from Steam for appid " ++ toString appid ++ "."))) := by
  refine ⟨?_, ?_, ?_, ?_⟩
  · intro appid db p m
    rfl
  · intro appid db p body h
    simp [sync_game_from_steam, fetch_steam_app_details, h]
  · intro appid db p body entry h hs
    simp [sync_game_from_steam, fetch_steam_app_details, h, dictGet, hs]
  · intro appid db p resp sd hf hn
    simp [sync_game_from_steam, hf, hn]

/-- Witness for the amended classification of claim C1: each of the four
cases at a concrete input (timeout; missing key; success false;
successful fetch with no name). -/
theorem sync_error_classification_witness :
    (sync_game_from_steam 620 store0 (HttpOutcome.netError "timeout") parseNone =
       Except.error (SyncErr.http 502 "Network error calling Steam API: timeout")) ∧
    (sync_game_from_steam 570 store0 (HttpOutcome.ok JObj.nil) parseNone =
       Except.error (SyncErr.http 502 "Steam API did not return data for appid 570.")) ∧
    (sync_game_from_steam 620 store0 (HttpOutcome.ok bodyC1) parseNone =
       Except.error (SyncErr.http 502 "Steam API did not return data for appid 620.")) ∧
    (sync_game_from_steam 730 store0 (HttpOutcome.ok (bodyFor 730 JObj.nil)) parseNone =
       Except.error (SyncErr.http 404 "No game name returned from Steam for appid 730.")) := by
  obtain ⟨h1, h2, h3, h4⟩ := sync_error_classification
  exact ⟨h1 620 store0 parseNone "timeout",
         h2 570 store0 parseNone JObj.nil rfl,
         h3 620 store0 parseNone bodyC1 (objOf [("success", JVal.jbool false)]) rfl rfl,
         h4 730 store0 parseNone (HttpOutcome.ok (bodyFor 730 JObj.nil)) sdEmpty rfl rfl⟩

lemma dictGet_jobj (fs : JObj) (key : String) (dflt : JVal) :
    dictGet (JVal.jobj fs) key dflt = .ok (jfield fs key dflt) := rfl

/-- Inversion of a successful normalization: the canonical record is
exactly the filtered/defaulted rendering of the raw fields. -/
lemma normalize_ok_inv (fs : JObj) (sd : SteamData)
    (h : normalizeAppDetails (JVal.jobj fs) = .ok sd) :
    ∃ gd dd pd cd rds ms rc,
      pyIter (pyOr (jfield fs "genres" (JVal.jarr JArr.nil)) (JVal.jarr JArr.nil)) = .ok gd ∧
      pyIter (pyOr (jfield fs "developers" (JVal.jarr JArr.nil)) (JVal.jarr JArr.nil)) = .ok dd ∧
      pyIter (pyOr (jfield fs "publishers" (JVal.jarr JArr.nil)) (JVal.jarr JArr.nil)) = .ok pd ∧
      pyIter (pyOr (jfield fs "categories" (JVal.jarr JArr.nil)) (JVal.jarr JArr.nil)) = .ok cd ∧
      dictGet (pyOr (jfield fs "release_date" JVal.jnull) (JVal.jobj JObj.nil)) "date" JVal.jnull = .ok rds ∧
      dictGet (pyOr (jfield fs "metacritic" JVal.jnull) (JVal.jobj JObj.nil)) "score" JVal.jnull = .ok ms ∧
      dictGet (pyOr (jfield fs "recommendations" JVal.jnull) (JVal.jobj JObj.nil)) "total" JVal.jnull = .ok rc ∧
      sd = { steam_appid := jfield fs "steam_appid" JVal.jnull,
             name := jfield fs "name" JVal.jnull,
             genres := (gd.filter JVal.isObj).map (fun g => objGetD g "description"),
             developers := dd.filter JVal.isStr,
             publishers := pd.filter JVal.isStr,
             categories := (cd.filter JVal.isObj).map (fun c => objGetD c "description"),
             release_date := rds,
             is_free := pyTruthy (jfield fs "is_free" (JVal.jbool false)),
             metacritic_score := ms, recommendations_count := rc,
             header_image := jfield fs "header_image" JVal.jnull,
             languages := jfield fs "supported_languages" JVal.jnull } := by
  simp only [normalizeAppDetails, dictGet_jobj, bind, Except.bind, pure, Except.pure] at h
  cases hgd : pyIter (pyOr (jfield fs "genres" (JVal.jarr JArr.nil)) (JVal.jarr JArr.nil)) with
  | error e => rw [hgd] at h; exact absurd h (by simp)
  | ok gd =>
  rw [hgd] at h
  cases hdd : pyIter (pyOr (jfield fs "developers" (JVal.jarr JArr.nil)) (JVal.jarr JArr.nil)) with
  | error e => rw [hdd] at h; exact absurd h (by simp)
  | ok dd =>
  rw [hdd] at h
  cases hpd : pyIter (pyOr (jfield fs "publishers" (JVal.jarr JArr.nil)) (JVal.jarr JArr.nil)) with
  | error e => rw [hpd] at h; exact absurd h (by simp)
  | ok pd =>
  rw [hpd] at h
  cases hcd : pyIter (pyOr (jfield fs "categories" (JVal.jarr JArr.nil)) (JVal.jarr JArr.nil)) with
  | error e => rw [hcd] at h; exact absurd h (by simp)
  | ok cd =>
  rw [hcd] at h
  cases hrds : dictGet (pyOr (jfield fs "release_date" JVal.jnull) (JVal.jobj JObj.nil)) "date" JVal.jnull with
  | error e => rw [hrds] at h; exact absurd h (by simp)
  | ok rds =>
  rw [hrds] at h
  cases hms : dictGet (pyOr (jfield fs "metacritic" JVal.jnull) (JVal.jobj JObj.nil)) "score" JVal.jnull with
  | error e => rw [hms] at h; exact absurd h (by simp)
  | ok ms =>
  rw [hms] at h
  cases hrc : dictGet (pyOr (jfield fs "recommendations" JVal.jnull) (JVal.jobj JObj.nil)) "total" JVal.jnull with
  | error e => rw [hrc] at h; exact absurd h (by simp)
  | ok rc =>
  rw [hrc] at h
  simp only [Except.ok.injEq] at h
  exact ⟨gd, dd, pd, cd, rds, ms, rc, rfl, rfl, rfl, rfl, rfl, rfl, rfl, h.symm⟩

/-- Inversion of a successful sync: the name was truthy, the four list
renderings succeeded, and the result is either the insert path, the
no-op update path, or the attribute-changing update path. -/
lemma sync_ok_inv (appid : Int) (db : Store) (resp : HttpOutcome)
    (p : String → Option CalDate) (sd : SteamData) (g : Game) (st' : Store)
    (hf : fetch_steam_app_details appid resp = .ok sd)
    (h : sync_game_from_steam appid db resp p = .ok (g, st')) :
    ∃ gs ds ps cs,
      pyTruthy sd.name = true ∧
      pyJoinComma sd.genres = .ok gs ∧
      pyJoinComma sd.developers = .ok ds ∧
      pyJoinComma sd.publishers = .ok ps ∧
      pyJoinComma sd.categories = .ok cs ∧
      ((db.games.find? (fun x => x.steam_appid == sd.steam_appid) = none ∧
        g = newGameOf sd gs ds ps cs (computeReleaseDate sd.release_date p) db ∧
        st' = { games := db.games ++ [g], nextId := db.nextId + 1, now := db.now + 1 }) ∨
       (∃ g0, db.games.find? (fun x => x.steam_appid == sd.steam_appid) = some g0 ∧
         ((applyFields g0 sd gs ds ps cs (computeReleaseDate sd.release_date p) = g0 ∧
           g = g0 ∧ st' = { db with now := db.now + 1 }) ∨
          (applyFields g0 sd gs ds ps cs (computeReleaseDate sd.release_date p) ≠ g0 ∧
           g = { applyFields g0 sd gs ds ps cs (computeReleaseDate sd.release_date p) with
                 updated_at := db.now } ∧
           st' = { db with
                   games := db.games.map (fun x => if x.id = g0.id then g else x),
                   now := db.now + 1 })))) := by
  simp only [sync_game_from_steam, hf] at h
  by_cases hn : pyTruthy sd.name = true
  case neg => simp [hn] at h
  simp only [hn, not_true, if_neg, ite_false, Bool.true_eq_false, not_false_iff, if_true] at h
  cases hgs : pyJoinComma sd.genres with
  | error e => rw [hgs] at h; exact absurd h (by simp)
  | ok gs =>
  rw [hgs] at h
  cases hds : pyJoinComma sd.developers with
  | error e => rw [hds] at h; exact absurd h (by simp)
  | ok ds =>
  rw [hds] at h
  cases hps : pyJoinComma sd.publishers with
  | error e => rw [hps] at h; exact absurd h (by simp)
  | ok ps =>
  rw [hps] at h
  cases hcs : pyJoinComma sd.categories with
  | error e => rw [hcs] at h; exact absurd h (by simp)
  | ok cs =>
  rw [hcs] at h
  dsimp only [] at h
  refine ⟨gs, ds, ps, cs, hn, rfl, rfl, rfl, rfl, ?_⟩
  cases hfind : db.games.find? (fun x => x.steam_appid == sd.steam_appid) with
  | none =>
    rw [hfind] at h
    simp only [Except.ok.injEq, Prod.mk.injEq] at h
    obtain ⟨hg, hst⟩ := h
    exact Or.inl ⟨rfl, hg.symm, by rw [← hst, hg]⟩
  | some g0 =>
    rw [hfind] at h
    dsimp only [] at h
    by_cases hdirty :
        applyFields g0 sd gs ds ps cs (computeReleaseDate sd.release_date p) = g0
    · rw [if_pos hdirty] at h
      simp only [Except.ok.injEq, Prod.mk.injEq] at h
      obtain ⟨hg, hst⟩ := h
      exact Or.inr ⟨g0, rfl, Or.inl ⟨hdirty, hg.symm, hst.symm⟩⟩
    · rw [if_neg hdirty] at h
      simp only [Except.ok.injEq, Prod.mk.injEq] at h
      obtain ⟨hg, hst⟩ := h
      refine Or.inr ⟨g0, rfl, Or.inr ⟨hdirty, hg.symm, ?_⟩⟩
      rw [← hst, hg]

/-- Forward direction: when the fetch succeeded, the name is truthy and
the four renderings succeed, the sync succeeds, and the persisted row
carries the computed release date and the upstream-reported appid. -/
lemma sync_ok_fwd (appid : Int) (db : Store) (resp : HttpOutcome)
    (p : String → Option CalDate) (sd : SteamData) (gs ds ps cs : String)
    (hf : fetch_steam_app_details appid resp = .ok sd)
    (hn : pyTruthy sd.name = true)
    (hgs : pyJoinComma sd.genres = .ok gs)
    (hds : pyJoinComma sd.developers = .ok ds)
    (hps : pyJoinComma sd.publishers = .ok ps)
    (hcs : pyJoinComma sd.categories = .ok cs) :
    ∃ g st', sync_game_from_steam appid db resp p = .ok (g, st') ∧
      g.release_date = computeReleaseDate sd.release_date p ∧
      g.steam_appid = sd.steam_appid := by
  simp only [sync_game_from_steam, hf, hn, not_true, ite_false,
    Bool.true_eq_false, not_false_iff, if_true]
  rw [hgs, hds, hps, hcs]
  dsimp only []
  cases hfind : db.games.find? (fun x => x.steam_appid == sd.steam_appid) with
  | none => exact ⟨_, _, rfl, rfl, rfl⟩
  | some g0 =>
    dsimp only []
    have hspid : g0.steam_appid = sd.steam_appid := by
      have hpg := List.find?_some hfind
      simpa using hpg
    by_cases hdirty :
        applyFields g0 sd gs ds ps cs (computeReleaseDate sd.release_date p) = g0
    · rw [if_pos hdirty]
      refine ⟨g0, _, rfl, ?_, hspid⟩
      conv_lhs => rw [← hdirty]
      rfl
    · rw [if_neg hdirty]
      exact ⟨_, _, rfl, rfl, hspid⟩

/-- Claim C7: when the upstream raw release-date string fails to parse,
the sync still succeeds (given the stages unrelated to the date do not
fail: the fetch succeeded, the name is truthy and the four list
renderings are strings) and the persisted record has `release_date`
unset — a date parse failure never fails the sync. -/
theorem sync_date_parse_failure_recoverable
    (appid : Int) (db : Store) (resp : HttpOutcome)
    (p : String → Option CalDate) (sd : SteamData) (gs ds ps cs s : String)
    (hf : fetch_steam_app_details appid resp = .ok sd)
    (hn : pyTruthy sd.name = true)
    (hgs : pyJoinComma sd.genres = .ok gs)
    (hds : pyJoinComma sd.developers = .ok ds)
    (hps : pyJoinComma sd.publishers = .ok ps)
    (hcs : pyJoinComma sd.categories = .ok cs)
    (hraw : sd.release_date = JVal.jstr s)
    (hparse : p s = none) :
    ∃ g st', sync_game_from_steam appid db resp p = .ok (g, st') ∧
      g.release_date = none := by
  obtain ⟨g, st', hsync, hrd, _⟩ :=
    sync_ok_fwd appid db resp p sd gs ds ps cs hf hn hgs hds hps hcs
  refine ⟨g, st', hsync, ?_⟩
  rw [hrd, hraw]
  unfold computeReleaseDate
  by_cases hs : s = ""
  · subst hs; simp [pyTruthy]
  · simp [pyTruthy, hs, hparse]

/-- Witness for claim C7: the "Portal 2" body with a parser that fails
on its date string. -/
theorem sync_date_parse_failure_recoverable_witness :
    ∃ g st',
      sync_game_from_steam 620 store0 (HttpOutcome.ok (bodyFor 620 portalData)) parseNone =
        .ok (g, st') ∧ g.release_date = none :=
  sync_date_parse_failure_recoverable 620 store0 (HttpOutcome.ok (bodyFor 620 portalData))
    parseNone sdPortal "Action, Adventure" "Valve" "Valve" "Single-player" "Apr 18, 2011"
    rfl rfl rfl rfl rfl rfl rfl rfl

/-- Claim C8 (amended): every record the sync flow writes carries the
upstream-reported `steam_appid` of the canonical record — on the
insert path it is stored on the new record, and on the update path the
matched record already carries it; it is present (an integer) exactly
when the upstream `data` object reports one, and null when upstream
omits it. -/
theorem sync_stores_upstream_appid
    (appid : Int) (db : Store) (resp : HttpOutcome) (p : String → Option CalDate)
    (sd : SteamData) (g : Game) (st' : Store)
    (hf : fetch_steam_app_details appid resp = .ok sd)
    (h : sync_game_from_steam appid db resp p = .ok (g, st')) :
    g.steam_appid = sd.steam_appid := by
  obtain ⟨gs, ds, ps, cs, hn, hgs, hds, hps, hcs, hbr⟩ :=
    sync_ok_inv appid db resp p sd g st' hf h
  rcases hbr with ⟨hfind, hg, hst⟩ | ⟨g0, hfind, hbr2⟩
  · subst hg; rfl
  · have hspid : g0.steam_appid = sd.steam_appid := by
      have hpg := List.find?_some hfind
      simpa using hpg
    rcases hbr2 with ⟨heq, hg, hst⟩ | ⟨hne, hg, hst⟩
    · subst hg; exact hspid
    · subst hg; exact hspid

/-- Witness for the amended statement of claim C8: the "Portal 2" insert
stores the reported appid 620 on the new record. -/
theorem sync_stores_upstream_appid_witness :
    portalGame.steam_appid = sdPortal.steam_appid :=
  sync_stores_upstream_appid 620 store0 (HttpOutcome.ok (bodyFor 620 portalData)) parseNone
    sdPortal portalGame storeP rfl rfl

/-- Claim C6: when the upstream list field `genres` is absent or null,
the canonical sequence collapses to the empty list, and an empty
canonical sequence renders to the empty comma-joined string on the
stored record — never a null value (the genre field of the model is a
total `String`). -/
theorem genres_absent_yields_empty_genre :
    (∀ (fs : JObj) (sd : SteamData),
       (fs.get? "genres" = none ∨ fs.get? "genres" = some JVal.jnull) →
       normalizeAppDetails (JVal.jobj fs) = .ok sd →
       sd.genres = []) ∧
    (∀ (appid : Int) (db : Store) (resp : HttpOutcome) (p : String → Option CalDate)
       (sd : SteamData) (g : Game) (st' : Store),
       fetch_steam_app_details appid resp = .ok sd →
       sd.genres = [] →
       sync_game_from_steam appid db resp p = .ok (g, st') →
       g.genre = "") := by
  constructor
  · intro fs sd habs h
    obtain ⟨gd, dd, pd, cd, rds, ms, rc, hgd, _, _, _, _, _, _, hsd⟩ :=
      normalize_ok_inv fs sd h
    have hpy : pyOr (jfield fs "genres" (JVal.jarr JArr.nil)) (JVal.jarr JArr.nil) =
        JVal.jarr JArr.nil := by
      rcases habs with h1 | h1 <;> simp [jfield, h1, pyOr, pyTruthy, JArr.isNil]
    rw [hpy] at hgd
    have hgdnil : gd = [] := by
      have : (Except.ok [] : Except FetchErr (List JVal)) = .ok gd := hgd
      injection this with h2
      exact h2.symm
    subst hgdnil
    rw [hsd]
    rfl
  · intro appid db resp p sd g st' hf hgen h
    obtain ⟨gs, ds, ps, cs, hn, hgs, hds, hps, hcs, hbr⟩ :=
      sync_ok_inv appid db resp p sd g st' hf h
    have hgs0 : gs = "" := by
      rw [hgen] at hgs
      have : (Except.ok "" : Except SyncErr String) = .ok gs := hgs
      injection this with h2
      exact h2.symm
    subst hgs0
    rcases hbr with ⟨hfind, hg, hst⟩ | ⟨g0, hfind, hbr2⟩
    · subst hg; rfl
    · rcases hbr2 with ⟨heq, hg, hst⟩ | ⟨hne, hg, hst⟩
      · subst hg
        exact (congrArg Game.genre heq).symm
      · subst hg; rfl

/-- Witness for claim C6: the `dataC8` body (no genres key) yields an
empty canonical genres list and an empty `genre` string. -/
theorem genres_absent_yields_empty_genre_witness :
    sdNoAppid.genres = [] ∧ noAppidGame.genre = "" :=
  ⟨genres_absent_yields_empty_genre.1 dataC8 sdNoAppid (Or.inl rfl) rfl,
   genres_absent_yields_empty_genre.2 730 store0 (HttpOutcome.ok (bodyFor 730 dataC8))
     parseNone sdNoAppid noAppidGame storeNA rfl rfl rfl⟩

/-- Claim C5 (amended): for the upstream list fields the client keeps,
in order: for `genres` and `categories`, exactly the dict-shaped
elements (taking the `description` of each, which may be null when the
dict lacks that key), discarding plain strings, numbers and every
other element; for `developers` and `publishers`, exactly the
plain-string elements, discarding dicts and every other element. -/
theorem list_field_filtering
    (fs : JObj) (sd : SteamData) (gl dl pl cl : JArr)
    (hg : fs.get? "genres" = some (JVal.jarr gl))
    (hd : fs.get? "developers" = some (JVal.jarr dl))
    (hp : fs.get? "publishers" = some (JVal.jarr pl))
    (hc : fs.get? "categories" = some (JVal.jarr cl))
    (h : normalizeAppDetails (JVal.jobj fs) = .ok sd) :
    sd.genres = (gl.toList.filter JVal.isObj).map (fun g => objGetD g "description") ∧
    sd.developers = dl.toList.filter JVal.isStr ∧
    sd.publishers = pl.toList.filter JVal.isStr ∧
    sd.categories = (cl.toList.filter JVal.isObj).map (fun c => objGetD c "description") := by
  obtain ⟨gd, dd, pd, cd, rds, ms, rc, hgd, hdd, hpd, hcd, _, _, _, hsd⟩ :=
    normalize_ok_inv fs sd h
  have hpyg : pyOr (jfield fs "genres" (JVal.jarr JArr.nil)) (JVal.jarr JArr.nil) =
      JVal.jarr gl := by
    cases gl <;> simp [jfield, hg, pyOr, pyTruthy, JArr.isNil]
  have hpyd : pyOr (jfield fs "developers" (JVal.jarr JArr.nil)) (JVal.jarr JArr.nil) =
      JVal.jarr dl := by
    cases dl <;> simp [jfield, hd, pyOr, pyTruthy, JArr.isNil]
  have hpyp : pyOr (jfield fs "publishers" (JVal.jarr JArr.nil)) (JVal.jarr JArr.nil) =
      JVal.jarr pl := by
    cases pl <;> simp [jfield, hp, pyOr, pyTruthy, JArr.isNil]
  have hpyc : pyOr (jfield fs "categories" (JVal.jarr JArr.nil)) (JVal.jarr JArr.nil) =
      JVal.jarr cl := by
    cases cl <;> simp [jfield, hc, pyOr, pyTruthy, JArr.isNil]
  rw [hpyg] at hgd
  rw [hpyd] at hdd
  rw [hpyp] at hpd
  rw [hpyc] at hcd
  have hgd' : gd = gl.toList := by
    have : (Except.ok gl.toList : Except FetchErr (List JVal)) = .ok gd := hgd
    injection this with h2
    exact h2.symm
  have hdd' : dd = dl.toList := by
    have : (Except.ok dl.toList : Except FetchErr (List JVal)) = .ok dd := hdd
    injection this with h2
    exact h2.symm
  have hpd' : pd = pl.toList := by
    have : (Except.ok pl.toList : Except FetchErr (List JVal)) = .ok pd := hpd
    injection this with h2
    exact h2.symm
  have hcd' : cd = cl.toList := by
    have : (Except.ok cl.toList : Except FetchErr (List JVal)) = .ok cd := hcd
    injection this with h2
    exact h2.symm
  subst hgd' hdd' hpd' hcd'
  rw [hsd]
  exact ⟨rfl, rfl, rfl, rfl⟩

/-- Witness for the amended statement of claim C5: the mixed genres list of
`dataC5` keeps only the description of the dict element. -/
theorem list_field_filtering_witness :
    sdMixed.genres =
      ((JArr.ofList [JVal.jstr "Action", JVal.jnum 42,
        JVal.jobj (objOf [("description", JVal.jstr "Indie")])]).toList.filter
          JVal.isObj).map (fun g => objGetD g "description") ∧
    sdMixed.developers = (JArr.nil.toList.filter JVal.isStr) ∧
    sdMixed.publishers = (JArr.nil.toList.filter JVal.isStr) ∧
    sdMixed.categories =
      ((JArr.nil.toList.filter JVal.isObj).map (fun c => objGetD c "description")) :=
  list_field_filtering dataC5Full sdMixed
    (JArr.ofList [JVal.jstr "Action", JVal.jnum 42,
      JVal.jobj (objOf [("description", JVal.jstr "Indie")])])
    JArr.nil JArr.nil JArr.nil rfl rfl rfl rfl rfl

/-- Claim C4 (amended): on the update path of the sync (an existing
record is found for the external id of the canonical record), all mirrored
and rendered fields (name, genre, developer, publisher, categories,
release_date, is_free, metacritic_score, recommendations_count,
header_image, languages) are overwritten in place with the freshly
fetched values, the `id` and `created_at` of the record are unchanged and
no row is inserted; `updated_at` is refreshed by the store whenever at
least one written field value actually differs from the stored one,
and left as it was when the write is a no-op (the ORM emits no UPDATE
in that case). -/
theorem sync_update_path_frame
    (appid : Int) (db : Store) (resp : HttpOutcome) (p : String → Option CalDate)
    (sd : SteamData) (g : Game) (st' : Store) (g0 : Game)
    (hf : fetch_steam_app_details appid resp = .ok sd)
    (h : sync_game_from_steam appid db resp p = .ok (g, st'))
    (hfind : db.games.find? (fun x => x.steam_appid == sd.steam_appid) = some g0) :
    ∃ gs ds ps cs,
      pyJoinComma sd.genres = .ok gs ∧ pyJoinComma sd.developers = .ok ds ∧
      pyJoinComma sd.publishers = .ok ps ∧ pyJoinComma sd.categories = .ok cs ∧
      g.name = sd.name ∧ g.genre = gs ∧ g.developer = ds ∧ g.publisher = ps ∧
      g.categories = cs ∧
      g.release_date = computeReleaseDate sd.release_date p ∧
      g.is_free = sd.is_free ∧ g.metacritic_score = sd.metacritic_score ∧
      g.recommendations_count = sd.recommendations_count ∧
      g.header_image = sd.header_image ∧ g.languages = sd.languages ∧
      g.id = g0.id ∧ g.created_at = g0.created_at ∧
      st'.games.length = db.games.length ∧
      (applyFields g0 sd gs ds ps cs (computeReleaseDate sd.release_date p) ≠ g0 →
        g.updated_at = db.now) ∧
      (applyFields g0 sd gs ds ps cs (computeReleaseDate sd.release_date p) = g0 →
        g.updated_at = g0.updated_at) := by
  obtain ⟨gs, ds, ps, cs, hn, hgs, hds, hps, hcs, hbr⟩ :=
    sync_ok_inv appid db resp p sd g st' hf h
  rcases hbr with ⟨hnone, _, _⟩ | ⟨g0', hfind', hbr2⟩
  · rw [hnone] at hfind; cases hfind
  · rw [hfind'] at hfind
    injection hfind with hg0
    subst hg0
    rcases hbr2 with ⟨heq, hg, hst⟩ | ⟨hne, hg, hst⟩
    · subst hg
      refine ⟨gs, ds, ps, cs, hgs, hds, hps, hcs,
        (congrArg Game.name heq).symm, (congrArg Game.genre heq).symm,
        (congrArg Game.developer heq).symm, (congrArg Game.publisher heq).symm,
        (congrArg Game.categories heq).symm, (congrArg Game.release_date heq).symm,
        (congrArg Game.is_free heq).symm, (congrArg Game.metacritic_score heq).symm,
        (congrArg Game.recommendations_count heq).symm,
        (congrArg Game.header_image heq).symm, (congrArg Game.languages heq).symm,
        rfl, rfl, ?_, fun hcontra => absurd heq hcontra, fun _ => rfl⟩
      rw [hst]
    · subst hg
      refine ⟨gs, ds, ps, cs, hgs, hds, hps, hcs,
        rfl, rfl, rfl, rfl, rfl, rfl, rfl, rfl, rfl, rfl, rfl,
        rfl, rfl, ?_, fun _ => rfl, fun hcontra => absurd hcontra hne⟩
      rw [hst]
      simp

/-- Witness for the amended statement of claim C4: resync of `storeP` with
the renamed upstream data overwrites the fields in place, keeps id 1
and `created_at`, and refreshes `updated_at` to the store clock. -/
theorem sync_update_path_frame_witness :
    ∃ gs ds ps cs,
      pyJoinComma sdPortal2.genres = .ok gs ∧
      pyJoinComma sdPortal2.developers = .ok ds ∧
      pyJoinComma sdPortal2.publishers = .ok ps ∧
      pyJoinComma sdPortal2.categories = .ok cs ∧
      remGame.name = sdPortal2.name ∧ remGame.genre = gs ∧
      remGame.developer = ds ∧ remGame.publisher = ps ∧
      remGame.categories = cs ∧
      remGame.release_date = computeReleaseDate sdPortal2.release_date parseNone ∧
      remGame.is_free = sdPortal2.is_free ∧
      remGame.metacritic_score = sdPortal2.metacritic_score ∧
      remGame.recommendations_count = sdPortal2.recommendations_count ∧
      remGame.header_image = sdPortal2.header_image ∧
      remGame.languages = sdPortal2.languages ∧
      remGame.id = portalGame.id ∧ remGame.created_at = portalGame.created_at ∧
      storeRem.games.length = storeP.games.length ∧
      (applyFields portalGame sdPortal2 gs ds ps cs
          (computeReleaseDate sdPortal2.release_date parseNone) ≠ portalGame →
        remGame.updated_at = storeP.now) ∧
      (applyFields portalGame sdPortal2 gs ds ps cs
          (computeReleaseDate sdPortal2.release_date parseNone) = portalGame →
        remGame.updated_at = portalGame.updated_at) :=
  sync_update_path_frame 620 storeP (HttpOutcome.ok (bodyFor 620 portalData2)) parseNone
    sdPortal2 remGame storeRem portalGame rfl rfl rfl

/-- Two members of a list with pairwise-distinct ids and equal ids are
equal. -/
lemma mem_id_unique {l : List Game} (hids : l.Pairwise (fun a b => a.id ≠ b.id))
    {a b : Game} (ha : a ∈ l) (hb : b ∈ l) (hid : a.id = b.id) : a = b := by
  by_contra hne
  have hsymm : Symmetric (fun a b : Game => a.id ≠ b.id) :=
    fun x y hxy hEq => hxy hEq.symm
  exact (hids.forall hsymm ha hb hne) hid

/-- Replacing by primary key the row that `find?` located keeps it the
first (and, by id-distinctness, only) match. -/
lemma find?_map_replace (l : List Game) (g0 c : Game) (p : Game → Bool)
    (hids : l.Pairwise (fun a b => a.id ≠ b.id))
    (hfind : l.find? p = some g0) (hc : p c = true) :
    (l.map (fun x => if x.id = g0.id then c else x)).find? p = some c := by
  induction l with
  | nil => simp at hfind
  | cons a t ih =>
    rw [List.pairwise_cons] at hids
    obtain ⟨hhead, htail⟩ := hids
    by_cases hpa : p a = true
    · rw [List.find?_cons_of_pos _ hpa] at hfind
      injection hfind with h1
      subst h1
      simp only [List.map_cons, if_pos rfl]
      exact List.find?_cons_of_pos _ hc
    · rw [List.find?_cons_of_neg _ hpa] at hfind
      have hg0t : g0 ∈ t := List.mem_of_find?_eq_some hfind
      have hane : a.id ≠ g0.id := hhead g0 hg0t
      simp only [List.map_cons, if_neg hane]
      rw [List.find?_cons_of_neg _ hpa]
      exact ih htail hfind


/-- Claim C2: starting from a store whose rows have pairwise-distinct
primary keys and at most one row per non-null external id, a
successful sync preserves the external-id uniqueness invariant, and
running the same sync again against an unchanged upstream response
succeeds, returns a record with the same `id`, and adds no row: the
second call takes the update path rather than inserting a duplicate. -/
theorem sync_upsert_idempotent
    (appid : Int) (db : Store) (resp : HttpOutcome) (p : String → Option CalDate)
    (hids : idsDistinct db) (hu : uniqueExternalIds db)
    (hok : isOkE (sync_game_from_steam appid db resp p) = true) :
    ∃ g st1 g2 st2,
      sync_game_from_steam appid db resp p = .ok (g, st1) ∧
      uniqueExternalIds st1 ∧
      sync_game_from_steam appid st1 resp p = .ok (g2, st2) ∧
      g2.id = g.id ∧ st2.games.length = st1.games.length := by
  cases hsync : sync_game_from_steam appid db resp p with
  | error e => rw [hsync] at hok; simp [isOkE] at hok
  | ok pr =>
  obtain ⟨g, st1⟩ := pr
  cases hf : fetch_steam_app_details appid resp with
  | error e => cases e <;> simp [sync_game_from_steam, hf] at hsync
  | ok sd =>
  obtain ⟨gs, ds, ps, cs, hn, hgs, hds, hps, hcs, hbr⟩ :=
    sync_ok_inv appid db resp p sd g st1 hf hsync
  rcases hbr with ⟨hfind, hg, hst⟩ | ⟨g0, hfind, hbr2⟩
  · -- insert path
    subst hg
    subst hst
    have hnotin : ∀ x ∈ db.games, ¬ (x.steam_appid == sd.steam_appid) = true :=
      fun x hx => by simpa using List.find?_eq_none.mp hfind x hx
    have hpnew :
        ((newGameOf sd gs ds ps cs (computeReleaseDate sd.release_date p) db).steam_appid ==
          sd.steam_appid) = true := by
      simp [newGameOf]
    have hfind2 :
        (db.games ++ [newGameOf sd gs ds ps cs (computeReleaseDate sd.release_date p) db]).find?
          (fun x => x.steam_appid == sd.steam_appid) =
        some (newGameOf sd gs ds ps cs (computeReleaseDate sd.release_date p) db) := by
      rw [List.find?_append, hfind]
      dsimp only [Option.or]
      simp [List.find?, hpnew]
    have huniq : uniqueExternalIds
        { games := db.games ++ [newGameOf sd gs ds ps cs (computeReleaseDate sd.release_date p) db],
          nextId := db.nextId + 1, now := db.now + 1 } := by
      simp only [uniqueExternalIds] at hu ⊢
      rw [List.pairwise_append]
      refine ⟨hu, by simp, ?_⟩
      intro a ha b hb
      rw [List.mem_singleton] at hb
      subst hb
      refine Or.inr ?_
      intro hEq
      apply hnotin a ha
      rw [beq_iff_eq]
      exact hEq
    have hsecond :
        sync_game_from_steam appid
          { games := db.games ++ [newGameOf sd gs ds ps cs (computeReleaseDate sd.release_date p) db],
            nextId := db.nextId + 1, now := db.now + 1 } resp p =
        .ok (newGameOf sd gs ds ps cs (computeReleaseDate sd.release_date p) db,
          { games := db.games ++ [newGameOf sd gs ds ps cs (computeReleaseDate sd.release_date p) db],
            nextId := db.nextId + 1, now := db.now + 1 + 1 }) := by
      simp only [sync_game_from_steam, hf, hn, not_true, ite_false,
        Bool.true_eq_false, not_false_iff, if_true]
      rw [hgs, hds, hps, hcs]
      dsimp only []
      rw [hfind2]
      dsimp only []
      have happ : applyFields
          (newGameOf sd gs ds ps cs (computeReleaseDate sd.release_date p) db)
          sd gs ds ps cs (computeReleaseDate sd.release_date p) =
          newGameOf sd gs ds ps cs (computeReleaseDate sd.release_date p) db := rfl
      rw [if_pos happ]
    exact ⟨_, _, _, _, rfl, huniq, hsecond, rfl, rfl⟩
  · -- update path
    have hg0mem : g0 ∈ db.games := List.mem_of_find?_eq_some hfind
    have hpg0 := List.find?_some hfind
    rcases hbr2 with ⟨heq, hg, hst⟩ | ⟨hne, hg, hst⟩
    · -- no-op update
      subst hg
      subst hst
      have hsecond :
          sync_game_from_steam appid
            { games := db.games, nextId := db.nextId, now := db.now + 1 } resp p =
          .ok (g, { games := db.games, nextId := db.nextId, now := db.now + 1 + 1 }) := by
        simp only [sync_game_from_steam, hf, hn, not_true, ite_false,
          Bool.true_eq_false, not_false_iff, if_true]
        rw [hgs, hds, hps, hcs]
        dsimp only []
        rw [hfind]
        dsimp only []
        rw [if_pos heq]
      exact ⟨_, _, _, _, rfl, hu, hsecond, rfl, rfl⟩
    · -- attribute-changing update
      subst hg
      subst hst
      have hpcg :
          (({ applyFields g0 sd gs ds ps cs (computeReleaseDate sd.release_date p) with
              updated_at := db.now } : Game).steam_appid == sd.steam_appid) = true := hpg0
      have hfind2 := find?_map_replace db.games g0
        { applyFields g0 sd gs ds ps cs (computeReleaseDate sd.release_date p) with
          updated_at := db.now }
        (fun x => x.steam_appid == sd.steam_appid) hids hfind hpcg
      have huniq : uniqueExternalIds
          { games := db.games.map (fun x => if x.id = g0.id then
              { applyFields g0 sd gs ds ps cs (computeReleaseDate sd.release_date p) with
                updated_at := db.now } else x),
            nextId := db.nextId, now := db.now + 1 } := by
        simp only [uniqueExternalIds] at hu ⊢
        rw [List.pairwise_map]
        refine hu.imp_of_mem ?_
        intro a b ha hb hr
        have hfa : ∀ x, x ∈ db.games →
            ((if x.id = g0.id then
                { applyFields g0 sd gs ds ps cs (computeReleaseDate sd.release_date p) with
                  updated_at := db.now } else x) : Game).steam_appid = x.steam_appid := by
          intro x hx
          by_cases hid : x.id = g0.id
          · rw [if_pos hid]
            have hx0 : x = g0 := mem_id_unique hids hx hg0mem hid
            subst hx0
            rfl
          · rw [if_neg hid]
        rw [hfa a ha, hfa b hb]
        exact hr
      have hsecond :
          sync_game_from_steam appid
            { games := db.games.map (fun x => if x.id = g0.id then
                { applyFields g0 sd gs ds ps cs (computeReleaseDate sd.release_date p) with
                  updated_at := db.now } else x),
              nextId := db.nextId, now := db.now + 1 } resp p =
          .ok ({ applyFields g0 sd gs ds ps cs (computeReleaseDate sd.release_date p) with
                 updated_at := db.now },
            { games := db.games.map (fun x => if x.id = g0.id then
                { applyFields g0 sd gs ds ps cs (computeReleaseDate sd.release_date p) with
                  updated_at := db.now } else x),
              nextId := db.nextId, now := db.now + 1 + 1 }) := by
        simp only [sync_game_from_steam, hf, hn, not_true, ite_false,
          Bool.true_eq_false, not_false_iff, if_true]
        rw [hgs, hds, hps, hcs]
        dsimp only []
        rw [hfind2]
        dsimp only []
        have happ2 : applyFields
            { applyFields g0 sd gs ds ps cs (computeReleaseDate sd.release_date p) with
              updated_at := db.now }
            sd gs ds ps cs (computeReleaseDate sd.release_date p) =
            { applyFields g0 sd gs ds ps cs (computeReleaseDate sd.release_date p) with
              updated_at := db.now } := rfl
        rw [if_pos happ2]
      exact ⟨_, _, _, _, rfl, huniq, hsecond, rfl, rfl⟩

/-- Witness for claim C2: syncing appid 620 into the empty store and
then resyncing with the unchanged upstream response. -/
theorem sync_upsert_idempotent_witness :
    ∃ g st1 g2 st2,
      sync_game_from_steam 620 store0 (HttpOutcome.ok (bodyFor 620 portalData)) parseNone =
        .ok (g, st1) ∧
      uniqueExternalIds st1 ∧
      sync_game_from_steam 620 st1 (HttpOutcome.ok (bodyFor 620 portalData)) parseNone =
        .ok (g2, st2) ∧
      g2.id = g.id ∧ st2.games.length = st1.games.length :=
  sync_upsert_idempotent 620 store0 (HttpOutcome.ok (bodyFor 620 portalData)) parseNone
    List.Pairwise.nil List.Pairwise.nil rfl
